import Mathlib

/-!
Shallow embedding of the renderer-agnostic material/UV pipeline of
`src/app/ThreeCanvas.tsx` (the documented revision of the component), together
with theorems settling the specification claims about it.

Machine numbers (JS doubles) are modelled as rationals; all catalog values and
epsilons in the source are exactly representable, so the comparisons in the
embedded code coincide with the source's comparisons on the inputs the claims
quantify over.
-/

namespace ThreeCanvas

/-- Three-component vector over rationals, standing in for `THREE.Vector3`. -/
structure Vec3 where
  x : ℚ
  y : ℚ
  z : ℚ
deriving DecidableEq, Repr

/-- Componentwise subtraction, as in `Vector3.sub`. -/
def Vec3.sub (a b : Vec3) : Vec3 := ⟨a.x - b.x, a.y - b.y, a.z - b.z⟩

/-- Componentwise addition, as in `Vector3.add`. -/
def Vec3.add (a b : Vec3) : Vec3 := ⟨a.x + b.x, a.y + b.y, a.z + b.z⟩

/-- Cross product, as in `Vector3.cross`. -/
def Vec3.cross (a b : Vec3) : Vec3 :=
  ⟨a.y * b.z - a.z * b.y, a.z * b.x - a.x * b.z, a.x * b.y - a.y * b.x⟩

/-- Componentwise division by a scalar, as in `Vector3.divideScalar`. -/
def Vec3.divideScalar (a : Vec3) (s : ℚ) : Vec3 := ⟨a.x / s, a.y / s, a.z / s⟩

/-- Dominant projection axis shared by both texture-projection strategies. -/
inductive Axis where
  | X
  | Y
  | Z
deriving DecidableEq, Repr

/-- Axis choice of the per-vertex loop in `boxProjectUVsCentered`
(`ThreeCanvas.tsx` lines 1391-1401): `axis` starts at `'x'`, becomes `'y'`
when `ny > nx && ny > nz`, else `'z'` when `nz > nx && nz > ny`.
The source compares `Math.abs` of the components of the world normal after
`normalize()`; normalisation divides by a positive length and therefore does
not change any of these strict comparisons (and on the zero vector all
comparisons are false both here and in the source, where they are
NaN-comparisons), so the comparisons are taken on the unnormalised components. -/
def boxAxis (wn : Vec3) : Axis :=
  let nx := |wn.x|
  let ny := |wn.y|
  let nz := |wn.z|
  if ny > nx ∧ ny > nz then Axis.Y
  else if nz > nx ∧ nz > ny then Axis.Z
  else Axis.X

/-- Axis choice of the GLSL `triSample` function injected by `applyTriplanar`
(`ThreeCanvas.tsx` lines 1314-1327): `an = abs(normalize(n))`;
`if (an.x > an.y && an.x > an.z)` sample the X projection,
`else if (an.y > an.z)` the Y projection, `else` the Z projection.
As with `boxAxis`, normalisation does not affect the comparisons, so they are
taken on the unnormalised components. -/
def triAxis (n : Vec3) : Axis :=
  let ax := |n.x|
  let ay := |n.y|
  let az := |n.z|
  if ax > ay ∧ ax > az then Axis.X
  else if ay > az then Axis.Y
  else Axis.Z

/-- Per-vertex body of `boxProjectUVsCentered` (`ThreeCanvas.tsx` lines
1386-1408), from the point where position and normal are already in world
space: `pc = wp.sub(pivotWS).divideScalar(sizeRef)`;
`uvX = [pc.z + 0.5, pc.y + 0.5]`, `uvY = [pc.x + 0.5, pc.z + 0.5]`,
`uvZ = [pc.x + 0.5, pc.y + 0.5]`, selected by the dominant normal axis. -/
def boxProjectUV (wp wn pivotWS : Vec3) (sizeRef : ℚ) : ℚ × ℚ :=
  let pc := (wp.sub pivotWS).divideScalar sizeRef
  match boxAxis wn with
  | Axis.X => (pc.z + 1/2, pc.y + 1/2)
  | Axis.Y => (pc.x + 1/2, pc.z + 1/2)
  | Axis.Z => (pc.x + 1/2, pc.y + 1/2)

/-- GLSL `fract`, i.e. the fractional part. -/
def fract (q : ℚ) : ℚ := Int.fract q

/-- UV produced by the GLSL `triSample` for world position `p` and normal `n`
(`ThreeCanvas.tsx` lines 1314-1327): `pc = p - triPivot`, then
`fract(pc.zy * triScale + 0.5)` / `fract(pc.xz * ...)` / `fract(pc.xy * ...)`
according to the dominant axis. -/
def triSampleUV (p pivot n : Vec3) (triScale : ℚ) : ℚ × ℚ :=
  let pc := p.sub pivot
  match triAxis n with
  | Axis.X => (fract (pc.z * triScale + 1/2), fract (pc.y * triScale + 1/2))
  | Axis.Y => (fract (pc.x * triScale + 1/2), fract (pc.z * triScale + 1/2))
  | Axis.Z => (fract (pc.x * triScale + 1/2), fract (pc.y * triScale + 1/2))

/-- Epsilon used by the material-updates effect (`ThreeCanvas.tsx` line 1578):
`const EPS = 0.02`. -/
def EPS : ℚ := 2/100

/-- Snap policy of the material-updates effect (`ThreeCanvas.tsx` lines
1579-1581): `(params.t ?? 0) > EPS ? params.t : 0`. When the parameter is
absent the guard compares `0 > EPS`, which is false, so taking `getD 0` first
is equivalent to the source. -/
def snapEps (v : ℚ) : ℚ := if v > EPS then v else 0

/-- Texture object. `white` is the 1x1 opaque white `DataTexture` placeholder
(`whiteTex`, `ThreeCanvas.tsx` lines 1464-1470); `loaded url` is a texture the
`TextureLoader` successfully produced for `url`. -/
inductive Tex where
  | white
  | loaded (url : String)
deriving DecidableEq, Repr

/-- Uniform record stored in `material.userData.triUniforms`
(`ThreeCanvas.tsx` lines 1268-1273). `triMap.value` starts as `null`. -/
structure TriUniforms where
  triMap : Option Tex
  triScale : ℚ
  triSharp : ℚ
  triPivot : Vec3
deriving DecidableEq, Repr

/-- Initial `triUniforms` object created by `applyTriplanar` when none exists:
`{ triMap: null, triScale: 1.0, triSharp: 2.0, triPivot: new Vector3() }`. -/
def defaultTriUniforms : TriUniforms := ⟨none, 1, 2, ⟨0, 0, 0⟩⟩

/-- The `onBeforeCompile` slot of a material. It is a single assignable field
in the scene-graph library, so installing a hook replaces any previous one;
`triplanar` is the hook closure installed by `applyTriplanar`
(`ThreeCanvas.tsx` lines 1274-1341), which injects the triplanar sampling
code into a fresh shader source on each compile. -/
inductive CompileHook where
  | triplanar
deriving DecidableEq, Repr

/-- State of the one `MeshPhysicalMaterial`, restricted to the fields the
embedded code reads or writes. -/
structure PMaterial where
  roughness : ℚ
  metalness : ℚ
  ior : ℚ
  transmission : ℚ
  thickness : ℚ
  clearcoat : ℚ
  clearcoatRoughness : ℚ
  envMapIntensity : ℚ
  color : String
  map : Option Tex
  userDataTriUniforms : Option TriUniforms
  onBeforeCompile : Option CompileHook
  needsUpdate : Bool
deriving DecidableEq, Repr

/-- User-editable parameter set (`params` prop of `Scene`): a
`MeshPhysicalMaterialParameters & { color?: string }` object whose fields may
be absent. -/
structure ParamsIn where
  color : Option String
  metalness : Option ℚ
  roughness : Option ℚ
  ior : Option ℚ
  transmission : Option ℚ
  thickness : Option ℚ
  clearcoat : Option ℚ
  clearcoatRoughness : Option ℚ
deriving DecidableEq, Repr

/-- The all-absent parameter object. -/
def ParamsIn.empty : ParamsIn := ⟨none, none, none, none, none, none, none, none⟩

/-- Embedding of `applyTriplanar` (`ThreeCanvas.tsx` lines 1267-1343):
`material.userData.triUniforms ??= {...}` keeps an existing uniforms object
and creates the default one only when absent; `material.onBeforeCompile = ...`
assigns (replaces) the single hook slot; `material.needsUpdate = true`. -/
def applyTriplanar (m : PMaterial) : PMaterial :=
  let u := m.userDataTriUniforms.getD defaultTriUniforms
  { m with
    userDataTriUniforms := some u
    onBeforeCompile := some CompileHook.triplanar
    needsUpdate := true }

/-- Creation of the shared material (`ThreeCanvas.tsx` lines 1553-1570):
`new MeshPhysicalMaterial({ ...params, color: params.color || '#ffffff',
envMapIntensity })`, then on the legacy (WebGL) backend `map = whiteTex`,
`applyTriplanar(m)`, `triUniforms.triMap.value = whiteTex`; on the modern
(WebGPU) backend `map = tex` when a texture is already loaded. Numeric
defaults are the library's `MeshPhysicalMaterial` defaults, used when the
constructor parameter object omits the field. -/
def initialMaterial (isWebGPU : Bool) (p : ParamsIn) (envIntensity : ℚ)
    (tex : Option Tex) : PMaterial :=
  let base : PMaterial :=
    { roughness := p.roughness.getD 1
      metalness := p.metalness.getD 0
      ior := p.ior.getD (3/2)
      transmission := p.transmission.getD 0
      thickness := p.thickness.getD 0
      clearcoat := p.clearcoat.getD 0
      clearcoatRoughness := p.clearcoatRoughness.getD 0
      envMapIntensity := envIntensity
      color := p.color.getD "#ffffff"
      map := none
      userDataTriUniforms := none
      onBeforeCompile := none
      needsUpdate := false }
  if isWebGPU then
    match tex with
    | some t => { base with map := some t }
    | none => base
  else
    let m := applyTriplanar { base with map := some Tex.white }
    { m with
      userDataTriUniforms :=
        some { (m.userDataTriUniforms.getD defaultTriUniforms) with
                 triMap := some Tex.white } }

/-- Embedding of the material-updates effect (`ThreeCanvas.tsx` lines
1574-1613). Writes the snapped numeric parameters, keeps `envMapIntensity`,
and runs the backend texture/color branch: with `hasTex = !!(mapUrl && tex)`,
the modern backend sets `map = hasTex ? tex : null` and forces white when a
texture is bound; the legacy backend routes the texture into
`triUniforms.triMap` (placeholder `whiteTex` when absent), updates
`triScale`, and forces white already when `mapUrl` is set. -/
def materialUpdate (isWebGPU : Bool) (p : ParamsIn) (envIntensity : ℚ)
    (tex : Option Tex) (mapUrl : Option String) (triScale : ℚ)
    (m : PMaterial) : PMaterial :=
  let m1 : PMaterial :=
    { m with
      roughness := p.roughness.getD (1/2)
      metalness := p.metalness.getD 0
      ior := p.ior.getD (3/2)
      transmission := snapEps (p.transmission.getD 0)
      thickness := snapEps (p.thickness.getD 0)
      clearcoat := snapEps (p.clearcoat.getD 0)
      clearcoatRoughness := p.clearcoatRoughness.getD 0
      envMapIntensity := envIntensity }
  let hasTex := mapUrl.isSome && tex.isSome
  if isWebGPU then
    { m1 with
      map := if hasTex then tex else none
      color := if hasTex then "#ffffff" else p.color.getD m1.color
      needsUpdate := true }
  else
    let tri := m1.userDataTriUniforms.getD defaultTriUniforms
    { m1 with
      userDataTriUniforms :=
        some { tri with
                 triMap := if hasTex then tex else some Tex.white
                 triScale := triScale }
      color := if mapUrl.isSome then "#ffffff" else p.color.getD m1.color }

/-- Value of `userData.triUniforms.triMap` of a material (the legacy
backend's texture binding). -/
def triMapValue (m : PMaterial) : Option Tex :=
  (m.userDataTriUniforms.getD defaultTriUniforms).triMap

/-- Entry of the mesh catalog: a display name and, for model-backed entries,
the path of the external GLB file. -/
structure MeshDescriptor where
  name : String
  glb : Option String
deriving DecidableEq, Repr

/-- The `MESHES` catalog (`ThreeCanvas.tsx` lines 1177-1188): indices 0-4 are
model-backed, indices 5-9 are procedural primitives. -/
def MESHES : List MeshDescriptor :=
  [⟨"Mother Earth", some "/glb1.glb"⟩,
   ⟨"Venus Willendorf", some "/glb2.glb"⟩,
   ⟨"Hekate Trivia", some "/glb3.glb"⟩,
   ⟨"Transi de Rene de Chalon", some "/glb4.glb"⟩,
   ⟨"Skull", some "/glb5.glb"⟩,
   ⟨"Sphere", none⟩,
   ⟨"Box", none⟩,
   ⟨"Torus", none⟩,
   ⟨"Cone", none⟩,
   ⟨"Cylinder", none⟩]

/-- Mesh-selection split (`ThreeCanvas.tsx` line 1526): `meshIndex < 5` are
GLB models, the rest procedural primitives. -/
def isGLB (meshIndex : Nat) : Bool := meshIndex < 5

/-- Entry of the material-preset catalog. -/
structure MaterialPreset where
  name : String
  base : ParamsIn
  mapUrl : Option String
deriving DecidableEq, Repr

/-- Base parameters of the nine textured presets, which share all fields but
`metalness` and `clearcoat`/`clearcoatRoughness` and carry no `color`. -/
def texturedBase (metal cc ccr : ℚ) : ParamsIn :=
  { color := none, metalness := some metal, roughness := some (2/10),
    ior := some (3/2), transmission := some 0, thickness := some 0,
    clearcoat := some cc, clearcoatRoughness := some ccr }

/-- Base parameters of the five solid presets, all fields present. -/
def solidBase (color : String) (metal rough transm thick : ℚ) : ParamsIn :=
  { color := some color, metalness := some metal, roughness := some rough,
    ior := some (3/2), transmission := some transm, thickness := some thick,
    clearcoat := some 0, clearcoatRoughness := some 0 }

/-- The `MATERIALS` catalog (`ThreeCanvas.tsx` lines 1204-1222): nine
textured presets (with `mapUrl`, no `color`) followed by five solid-color
presets (with `color`, no `mapUrl`). -/
def MATERIALS : List MaterialPreset :=
  [⟨"Texture 1", texturedBase 0 0 0, some "/texture1.jpg"⟩,
   ⟨"Texture 2", texturedBase (2/10) 0 0, some "/texture2.jpg"⟩,
   ⟨"Texture 3", texturedBase 0 (1/10) (2/10), some "/texture3.jpg"⟩,
   ⟨"Texture 4", texturedBase (6/10) (2/10) (3/10), some "/texture4.jpg"⟩,
   ⟨"Texture 5", texturedBase 0 0 0, some "/texture5.jpg"⟩,
   ⟨"Texture 6", texturedBase 0 0 0, some "/texture6.jpg"⟩,
   ⟨"Texture 7", texturedBase 0 0 0, some "/texture7.jpg"⟩,
   ⟨"Texture 8", texturedBase 0 0 0, some "/texture8.jpg"⟩,
   ⟨"Texture 9", texturedBase 0 0 0, some "/texture9.jpg"⟩,
   ⟨"Default", solidBase "#8976b8" 0 (1/10) 0 0, none⟩,
   ⟨"Metal", solidBase "#c0c0c0" 1 (1/10) 0 0, none⟩,
   ⟨"Glass", solidBase "#ffffff" 0 (1/10) 1 1, none⟩,
   ⟨"Rough", solidBase "#8ec78f" 0 (9/10) 0 0, none⟩,
   ⟨"Chrome", solidBase "#ffffff" 1 0 0 0, none⟩]

/-- Embedding of the preset-merge effect (`ThreeCanvas.tsx` lines 1880-1889):
`next = { ...prev, ...base }` (fields present in the preset base override the
previous params, absent ones survive), then `delete next.color` when the
current preset has a `mapUrl`. -/
def mergePreset (prev : ParamsIn) (base : ParamsIn)
    (currentMapUrl : Option String) : ParamsIn :=
  let next : ParamsIn :=
    { color := base.color.orElse fun _ => prev.color
      metalness := base.metalness.orElse fun _ => prev.metalness
      roughness := base.roughness.orElse fun _ => prev.roughness
      ior := base.ior.orElse fun _ => prev.ior
      transmission := base.transmission.orElse fun _ => prev.transmission
      thickness := base.thickness.orElse fun _ => prev.thickness
      clearcoat := base.clearcoat.orElse fun _ => prev.clearcoat
      clearcoatRoughness :=
        base.clearcoatRoughness.orElse fun _ => prev.clearcoatRoughness }
  if currentMapUrl.isSome then { next with color := none } else next

/-- Root-component state touched by the embedded event handlers
(`ThreeCanvas.tsx` lines 1795-1823). -/
structure AppState where
  meshIndex : Nat
  matIndex : Nat
  safeMode : Bool
  ctxVersion : Nat
deriving DecidableEq, Repr

/-- Inbound events whose handlers update `AppState`: the two context-loss
signals wired to `ContextLossProtector` (`ThreeCanvas.tsx` lines 1959-1965)
and the two selection handlers of the UI selects. -/
inductive AppEvent where
  | contextLost
  | contextRestored
  | selectMesh (i : Nat)
  | selectMaterial (i : Nat)
deriving DecidableEq, Repr

/-- Event handlers of the root component: `onLost` runs `setSafeMode(true)`;
`onRestored` runs `setCtxVersion(v => v + 1); setSafeMode(false)`; the
selection handlers only set their index. -/
def appStep (s : AppState) : AppEvent → AppState
  | AppEvent.contextLost => { s with safeMode := true }
  | AppEvent.contextRestored =>
      { s with ctxVersion := s.ctxVersion + 1, safeMode := false }
  | AppEvent.selectMesh i => { s with meshIndex := i }
  | AppEvent.selectMaterial i => { s with matIndex := i }

/-- State of the texture-loading effect of `Scene` (`ThreeCanvas.tsx` lines
1460-1518). `latest` numbers the effect runs: each run's cleanup sets the
previous run's `alive` flag to `false`, so a pending load is alive exactly
when its generation equals `latest`. -/
structure TexEffectState where
  latest : Nat
  tex : Option Tex
  loadingTex : Bool
  lastMap : Option String
deriving DecidableEq, Repr

/-- One run of the texture-loading effect (`ThreeCanvas.tsx` lines
1480-1518). Re-running the effect first kills the previous run's `alive`
flag (modelled by bumping `latest`); with no `mapUrl` it clears the cached
url, the loading flag and the texture state; with an unchanged `mapUrl` it
returns early; otherwise it starts a load of generation `latest`. -/
def texEffectRun (mapUrl : Option String) (s : TexEffectState) :
    TexEffectState :=
  let s1 := { s with latest := s.latest + 1 }
  match mapUrl with
  | none => { s1 with lastMap := none, loadingTex := false, tex := none }
  | some url =>
      if s1.lastMap = some url then s1 else { s1 with loadingTex := true }

/-- Completion callback of a texture load of generation `g`
(`ThreeCanvas.tsx` lines 1493-1513). When the flag is stale (`g ≠ latest`)
the success callback disposes the texture and returns without storing it and
the error callback does nothing; when alive, success stores the configured
texture, records the url and clears the loading flag, and failure (network or
decode error) only clears the loading flag — both branches are ordinary
callbacks, no exception escapes. -/
def texLoadComplete (g : Nat) (url : String) (result : Except Unit Tex)
    (s : TexEffectState) : TexEffectState :=
  if g = s.latest then
    match result with
    | Except.ok t =>
        { s with tex := some t, lastMap := some url, loadingTex := false }
    | Except.error _ => { s with loadingTex := false }
  else s

/-- Buffer geometry restricted to the attributes the embedded code touches:
vertex positions, vertex normals, UVs and the triangle index. A `none`
attribute is an absent attribute. -/
structure BufferGeometry where
  position : Option (List Vec3)
  normal : Option (List Vec3)
  uv : Option (List (ℚ × ℚ))
  index : Option (List Nat)
deriving DecidableEq, Repr

/-- Groups a flat index list into triangles, dropping a trailing partial
triangle as the library's triangle iteration does. -/
def groupTriples : List Nat → List (Nat × Nat × Nat)
  | a :: b :: c :: rest => (a, b, c) :: groupTriples rest
  | _ => []

/-- Triangle list of a geometry with `n` vertices: the grouped index when one
exists, else consecutive vertex triples. -/
def trianglesOf (n : Nat) (idx : Option (List Nat)) :
    List (Nat × Nat × Nat) :=
  match idx with
  | some is => groupTriples is
  | none => (List.range (n / 3)).map fun i => (3 * i, 3 * i + 1, 3 * i + 2)

/-- Adds `v` into entry `i` of a normal accumulator. -/
def addAt (ns : List Vec3) (i : Nat) (v : Vec3) : List Vec3 :=
  ns.set i ((ns.getD i ⟨0, 0, 0⟩).add v)

/-- Accumulates one face normal `cross(c - b, a - b)` into the three vertices
of a triangle, as the library's vertex-normal pass does. -/
def accumFace (ps : List Vec3) (ns : List Vec3) (t : Nat × Nat × Nat) :
    List Vec3 :=
  let a := ps.getD t.1 ⟨0, 0, 0⟩
  let b := ps.getD t.2.1 ⟨0, 0, 0⟩
  let c := ps.getD t.2.2 ⟨0, 0, 0⟩
  let fn := Vec3.cross (c.sub b) (a.sub b)
  addAt (addAt (addAt ns t.1 fn) t.2.1 fn) t.2.2 fn

/-- Model of the scene-graph library's `BufferGeometry.computeVertexNormals`,
called on demand at `ThreeCanvas.tsx` line 1377: zero-initialise one normal
per vertex, accumulate every face normal into its three vertices. The
library's final per-vertex `normalize()` rescales each accumulated vector by
a positive factor (and fixes the zero vector); no claim observes normal
values, only that exactly the `normal` attribute is produced, one vector per
vertex. -/
def computeVertexNormalsModel (ps : List Vec3) (idx : Option (List Nat)) :
    List Vec3 :=
  (trianglesOf ps.length idx).foldl (accumFace ps)
    (List.replicate ps.length ⟨0, 0, 0⟩)

/-- Embedding of `boxProjectUVsCentered` (`ThreeCanvas.tsx` lines 1370-1413)
at the geometry level. `world` is the object's world-matrix action on
positions and `nrm` the normal-matrix action (followed by `normalize`, which
`boxProjectUV` need not observe) on normals. A geometry without a `position`
attribute is returned unchanged (`if (!geo.attributes.position) return`);
normals are computed on demand when absent; one UV pair per vertex is written
into the `uv` attribute. -/
def boxProjectUVsCentered (world nrm : Vec3 → Vec3) (geo : BufferGeometry)
    (pivotWS : Vec3) (sizeRef : ℚ) : BufferGeometry :=
  match geo.position with
  | none => geo
  | some ps =>
      let normals :=
        match geo.normal with
        | some ns => ns
        | none => computeVertexNormalsModel ps geo.index
      let uvs :=
        List.zipWith (fun p n => boxProjectUV (world p) (nrm n) pivotWS sizeRef)
          ps normals
      { geo with normal := some normals, uv := some uvs }

mutual

/-- Scene-graph node as the assignment pass sees it: whether the node is a
drawable mesh, its world-matrix and normal-matrix actions, its geometry, the
identity of the material it holds (materials are compared by reference in the
source, modelled by a numeric id), its shadow flags and its children. -/
inductive Obj3D where
  | mk (isMesh : Bool) (world nrm : Vec3 → Vec3)
      (geometry : Option BufferGeometry) (material : Option Nat)
      (castShadow receiveShadow : Bool) (children : ObjList) : Obj3D

/-- List of child nodes of a scene-graph node. -/
inductive ObjList where
  | nil : ObjList
  | cons (head : Obj3D) (tail : ObjList) : ObjList

end

mutual

/-- Embedding of the `assign` traversal of the material-assignment effect
(`ThreeCanvas.tsx` lines 1632-1643): every node with `isMesh` gets
`castShadow = true`, `receiveShadow = true`, `material = sharedMatRef.current`
and, on the modern backend, regenerated box-projected UVs; other nodes are
untouched; children are traversed recursively. -/
def assignObj (isWebGPU : Bool) (shared : Nat) (pivotWS : Vec3)
    (sizeRef : ℚ) : Obj3D → Obj3D
  | Obj3D.mk isMesh w nm geo mat cast recv ch =>
      if isMesh then
        Obj3D.mk isMesh w nm
          (if isWebGPU then
            geo.map fun g => boxProjectUVsCentered w nm g pivotWS sizeRef
          else geo)
          (some shared) true true (assignList isWebGPU shared pivotWS sizeRef ch)
      else
        Obj3D.mk isMesh w nm geo mat cast recv
          (assignList isWebGPU shared pivotWS sizeRef ch)

/-- Children part of the `assign` traversal. -/
def assignList (isWebGPU : Bool) (shared : Nat) (pivotWS : Vec3)
    (sizeRef : ℚ) : ObjList → ObjList
  | ObjList.nil => ObjList.nil
  | ObjList.cons o os =>
      ObjList.cons (assignObj isWebGPU shared pivotWS sizeRef o)
        (assignList isWebGPU shared pivotWS sizeRef os)

end

mutual

/-- Checks that every drawable (mesh) node in a subtree holds exactly the
shared material `shared`. -/
def allMeshesShareObj (shared : Nat) : Obj3D → Bool
  | Obj3D.mk isMesh _ _ _ mat _ _ ch =>
      (!isMesh || decide (mat = some shared)) && allMeshesShareList shared ch

/-- Checks `allMeshesShareObj` on every node of a child list. -/
def allMeshesShareList (shared : Nat) : ObjList → Bool
  | ObjList.nil => true
  | ObjList.cons o os =>
      allMeshesShareObj shared o && allMeshesShareList shared os

end

/-! Helper lemmas shared by the claim theorems. -/

theorem snapEps_of_le {v : ℚ} (h : v ≤ EPS) : snapEps v = 0 := by
  unfold snapEps
  rw [if_neg (not_lt.mpr h)]

theorem snapEps_of_gt {v : ℚ} (h : EPS < v) : snapEps v = v := by
  unfold snapEps
  rw [if_pos h]

theorem boxAxis_y {n : Vec3} (h1 : |n.y| > |n.x|) (h2 : |n.y| > |n.z|) :
    boxAxis n = Axis.Y := by
  simp only [boxAxis]
  rw [if_pos ⟨h1, h2⟩]

theorem boxAxis_z {n : Vec3} (h1 : |n.z| > |n.x|) (h2 : |n.z| > |n.y|) :
    boxAxis n = Axis.Z := by
  simp only [boxAxis]
  rw [if_neg, if_pos ⟨h1, h2⟩]
  rintro ⟨-, h4⟩
  exact absurd h4 (not_lt.mpr h2.le)

theorem boxAxis_x {n : Vec3} (hy : ¬(|n.y| > |n.x| ∧ |n.y| > |n.z|))
    (hz : ¬(|n.z| > |n.x| ∧ |n.z| > |n.y|)) : boxAxis n = Axis.X := by
  simp only [boxAxis]
  rw [if_neg hy, if_neg hz]

theorem triAxis_x {n : Vec3} (h1 : |n.x| > |n.y|) (h2 : |n.x| > |n.z|) :
    triAxis n = Axis.X := by
  simp only [triAxis]
  rw [if_pos ⟨h1, h2⟩]

theorem triAxis_y {n : Vec3} (h0 : ¬(|n.x| > |n.y| ∧ |n.x| > |n.z|))
    (h1 : |n.y| > |n.z|) : triAxis n = Axis.Y := by
  simp only [triAxis]
  rw [if_neg h0, if_pos h1]

theorem triAxis_z {n : Vec3} (h0 : ¬(|n.x| > |n.y| ∧ |n.x| > |n.z|))
    (h1 : ¬(|n.y| > |n.z|)) : triAxis n = Axis.Z := by
  simp only [triAxis]
  rw [if_neg h0, if_neg h1]

theorem boxProjectUV_of_x {wp wn pivotWS : Vec3} {sizeRef : ℚ}
    (h : boxAxis wn = Axis.X) :
    boxProjectUV wp wn pivotWS sizeRef =
      (((wp.sub pivotWS).divideScalar sizeRef).z + 1/2,
       ((wp.sub pivotWS).divideScalar sizeRef).y + 1/2) := by
  unfold boxProjectUV
  rw [h]

theorem boxProjectUV_of_y {wp wn pivotWS : Vec3} {sizeRef : ℚ}
    (h : boxAxis wn = Axis.Y) :
    boxProjectUV wp wn pivotWS sizeRef =
      (((wp.sub pivotWS).divideScalar sizeRef).x + 1/2,
       ((wp.sub pivotWS).divideScalar sizeRef).z + 1/2) := by
  unfold boxProjectUV
  rw [h]

theorem boxProjectUV_of_z {wp wn pivotWS : Vec3} {sizeRef : ℚ}
    (h : boxAxis wn = Axis.Z) :
    boxProjectUV wp wn pivotWS sizeRef =
      (((wp.sub pivotWS).divideScalar sizeRef).x + 1/2,
       ((wp.sub pivotWS).divideScalar sizeRef).y + 1/2) := by
  unfold boxProjectUV
  rw [h]

theorem materialUpdate_transmission (iw : Bool) (p : ParamsIn) (env : ℚ)
    (tex : Option Tex) (mapUrl : Option String) (ts : ℚ) (m : PMaterial) :
    (materialUpdate iw p env tex mapUrl ts m).transmission =
      snapEps (p.transmission.getD 0) := by
  unfold materialUpdate
  split <;> rfl

theorem materialUpdate_thickness (iw : Bool) (p : ParamsIn) (env : ℚ)
    (tex : Option Tex) (mapUrl : Option String) (ts : ℚ) (m : PMaterial) :
    (materialUpdate iw p env tex mapUrl ts m).thickness =
      snapEps (p.thickness.getD 0) := by
  unfold materialUpdate
  split <;> rfl

theorem materialUpdate_clearcoat (iw : Bool) (p : ParamsIn) (env : ℚ)
    (tex : Option Tex) (mapUrl : Option String) (ts : ℚ) (m : PMaterial) :
    (materialUpdate iw p env tex mapUrl ts m).clearcoat =
      snapEps (p.clearcoat.getD 0) := by
  unfold materialUpdate
  split <;> rfl

/-! Claim C2: the epsilon snap of transmission, thickness and clearcoat. -/

/-- C2, counterexample: the claim states the reconciliation applies the input
value unchanged whenever it is not below the epsilon 0.02, but at an input
transmission of exactly 0.02 the guard `value > EPS` is false and the applied
transmission is 0, not 0.02. -/
theorem claim_C2_counterexample :
    ¬ ((2/100 : ℚ) < EPS) ∧
    (materialUpdate false { ParamsIn.empty with transmission := some (2/100) }
        1 none none 1 (initialMaterial false ParamsIn.empty 1 none)).transmission = 0 ∧
    (2/100 : ℚ) ≠ 0 := by
  refine ⟨by norm_num [EPS], ?_, by norm_num⟩
  rw [materialUpdate_transmission]
  have hv : ({ ParamsIn.empty with transmission := some (2/100) } :
      ParamsIn).transmission.getD 0 = 2/100 := rfl
  rw [hv]
  exact snapEps_of_le le_rfl

/-- C2 (amended): the reconciliation step applies each of transmission,
thickness and clearcoat as exactly 0 when the input value is at or below the
epsilon 0.02, and applies the input value unchanged when it is strictly above
the epsilon; in particular an input transmission of 0.01 yields exactly 0 and
an input transmission of 0.03 yields exactly 0.03. -/
theorem claim_C2_amended (iw : Bool) (p : ParamsIn) (env : ℚ)
    (tex : Option Tex) (mapUrl : Option String) (ts : ℚ) (m : PMaterial) :
    ((p.transmission.getD 0 ≤ EPS →
        (materialUpdate iw p env tex mapUrl ts m).transmission = 0) ∧
     (EPS < p.transmission.getD 0 →
        (materialUpdate iw p env tex mapUrl ts m).transmission =
          p.transmission.getD 0)) ∧
    ((p.thickness.getD 0 ≤ EPS →
        (materialUpdate iw p env tex mapUrl ts m).thickness = 0) ∧
     (EPS < p.thickness.getD 0 →
        (materialUpdate iw p env tex mapUrl ts m).thickness =
          p.thickness.getD 0)) ∧
    ((p.clearcoat.getD 0 ≤ EPS →
        (materialUpdate iw p env tex mapUrl ts m).clearcoat = 0) ∧
     (EPS < p.clearcoat.getD 0 →
        (materialUpdate iw p env tex mapUrl ts m).clearcoat =
          p.clearcoat.getD 0)) := by
  have ht := materialUpdate_transmission iw p env tex mapUrl ts m
  have hk := materialUpdate_thickness iw p env tex mapUrl ts m
  have hc := materialUpdate_clearcoat iw p env tex mapUrl ts m
  exact ⟨⟨fun h => ht.trans (snapEps_of_le h), fun h => ht.trans (snapEps_of_gt h)⟩,
    ⟨fun h => hk.trans (snapEps_of_le h), fun h => hk.trans (snapEps_of_gt h)⟩,
    ⟨fun h => hc.trans (snapEps_of_le h), fun h => hc.trans (snapEps_of_gt h)⟩⟩

/-- C2, witness: the amended theorem applied at the claim's round-trip
inputs, an input transmission of 0.01 (applied as 0) and of 0.03 (applied
unchanged). -/
theorem claim_C2_witness :
    (1/100 : ℚ) ≤ EPS ∧ EPS < (3/100 : ℚ) ∧
    (materialUpdate false { ParamsIn.empty with transmission := some (1/100) }
        1 none none 1 (initialMaterial false ParamsIn.empty 1 none)).transmission = 0 ∧
    (materialUpdate false { ParamsIn.empty with transmission := some (3/100) }
        1 none none 1 (initialMaterial false ParamsIn.empty 1 none)).transmission = 3/100 := by
  refine ⟨by norm_num [EPS], by norm_num [EPS], ?_, ?_⟩
  · exact (claim_C2_amended false
      { ParamsIn.empty with transmission := some (1/100) } 1 none none 1
      (initialMaterial false ParamsIn.empty 1 none)).1.1 (by norm_num [EPS])
  · exact (claim_C2_amended false
      { ParamsIn.empty with transmission := some (3/100) } 1 none none 1
      (initialMaterial false ParamsIn.empty 1 none)).1.2 (by norm_num [EPS])

/-! Claim C3: the per-vertex box projection formula. -/

/-- C3: for every vertex with world position `w`, world normal `n`, pivot `c`
and reference size `s > 0`, with `pc = (w - c) / s`: when the absolute normal
is Y-dominant the written UV is `(pc.x + 0.5, pc.z + 0.5)`; else when
Z-dominant it is `(pc.x + 0.5, pc.y + 0.5)`; otherwise it is
`(pc.z + 0.5, pc.y + 0.5)`. -/
theorem claim_C3_box_projection (w n c : Vec3) (s : ℚ) (hs : 0 < s) :
    (|n.y| > |n.x| ∧ |n.y| > |n.z| →
      boxProjectUV w n c s =
        (((w.sub c).divideScalar s).x + 1/2,
         ((w.sub c).divideScalar s).z + 1/2)) ∧
    (|n.z| > |n.x| ∧ |n.z| > |n.y| →
      boxProjectUV w n c s =
        (((w.sub c).divideScalar s).x + 1/2,
         ((w.sub c).divideScalar s).y + 1/2)) ∧
    (¬(|n.y| > |n.x| ∧ |n.y| > |n.z|) ∧ ¬(|n.z| > |n.x| ∧ |n.z| > |n.y|) →
      boxProjectUV w n c s =
        (((w.sub c).divideScalar s).z + 1/2,
         ((w.sub c).divideScalar s).y + 1/2)) := by
  refine ⟨fun h => ?_, fun h => ?_, fun h => ?_⟩
  · exact boxProjectUV_of_y (boxAxis_y h.1 h.2)
  · exact boxProjectUV_of_z (boxAxis_z h.1 h.2)
  · exact boxProjectUV_of_x (boxAxis_x h.1 h.2)

/-- C3, witness: the claim's concrete instance — pivot `(0,0,0)`, size 2, a
vertex at world position `(1,0,0)` with normal `(1,0,0)` gets UV
`(0.5, 0.5)`. -/
theorem claim_C3_witness :
    (0 : ℚ) < 2 ∧
    boxProjectUV ⟨1, 0, 0⟩ ⟨1, 0, 0⟩ ⟨0, 0, 0⟩ 2 = (1/2, 1/2) := by
  refine ⟨by norm_num, ?_⟩
  have h := (claim_C3_box_projection ⟨1, 0, 0⟩ ⟨1, 0, 0⟩ ⟨0, 0, 0⟩ 2
      (by norm_num)).2.2 (by norm_num)
  rw [h]
  simp only [Vec3.sub, Vec3.divideScalar]
  norm_num

/-! Claim C5: equivalence of the two dominant-axis selections. -/

/-- C5, counterexample: the claim asserts the axis chosen by the legacy
shader's `triSample` equals the axis chosen by `boxProjectUVsCentered` for
every nonzero normal, including ties; at the nonzero normal `(1,1,0)` (two
equal absolute components) `triSample` falls through to its Y branch while
`boxProjectUVsCentered` keeps its default X axis. -/
theorem claim_C5_counterexample :
    triAxis ⟨1, 1, 0⟩ = Axis.Y ∧ boxAxis ⟨1, 1, 0⟩ = Axis.X ∧
    Axis.Y ≠ Axis.X := by
  refine ⟨?_, ?_, by decide⟩
  · exact triAxis_y (by norm_num) (by norm_num)
  · exact boxAxis_x (by norm_num) (by norm_num)

/-- C5 (amended): whenever one absolute component of the normal strictly
dominates the other two, the dominant axis chosen by the legacy shader's
`triSample` equals the axis chosen by `boxProjectUVsCentered` (and both map
X to the Y-Z plane, Y to X-Z, Z to X-Y); when two or three absolute
components are exactly equal the two backends' tie-breaking can differ. -/
theorem claim_C5_amended (n : Vec3)
    (h : (|n.x| > |n.y| ∧ |n.x| > |n.z|) ∨ (|n.y| > |n.x| ∧ |n.y| > |n.z|) ∨
      (|n.z| > |n.x| ∧ |n.z| > |n.y|)) :
    triAxis n = boxAxis n := by
  rcases h with ⟨h1, h2⟩ | ⟨h1, h2⟩ | ⟨h1, h2⟩
  · rw [triAxis_x h1 h2, boxAxis_x]
    · rintro ⟨h3, -⟩
      exact absurd h3 (not_lt.mpr h1.le)
    · rintro ⟨h3, -⟩
      exact absurd h3 (not_lt.mpr h2.le)
  · rw [triAxis_y ?_ h2, boxAxis_y h1 h2]
    rintro ⟨h3, -⟩
    exact absurd h3 (not_lt.mpr h1.le)
  · rw [boxAxis_z h1 h2, triAxis_z]
    · rintro ⟨-, h3⟩
      exact absurd h3 (not_lt.mpr h1.le)
    · exact not_lt.mpr h2.le

/-- C5, witness: the amended theorem applied at the strictly Y-dominant
normal `(0,3,1)`. -/
theorem claim_C5_witness :
    (|(3 : ℚ)| > |(0 : ℚ)| ∧ |(3 : ℚ)| > |(1 : ℚ)|) ∧
    triAxis ⟨0, 3, 1⟩ = boxAxis ⟨0, 3, 1⟩ :=
  ⟨⟨by norm_num, by norm_num⟩,
   claim_C5_amended ⟨0, 3, 1⟩ (Or.inr (Or.inl ⟨by norm_num, by norm_num⟩))⟩

/-! Claim C6: idempotence of applyTriplanar. -/

/-- C6: applying `applyTriplanar` a second time to an already-patched
material leaves it in the same state as applying it once, and an existing
`triUniforms` object in `userData` is preserved rather than replaced (so its
uniform values survive); the shader-injection hook occupies the material's
single `onBeforeCompile` slot, so it does not accumulate and the triplanar
code is never injected twice into a compiled shader. -/
theorem claim_C6_idempotent (m : PMaterial) :
    applyTriplanar (applyTriplanar m) = applyTriplanar m ∧
    (∀ u, m.userDataTriUniforms = some u →
      (applyTriplanar m).userDataTriUniforms = some u) := by
  constructor
  · simp [applyTriplanar]
  · intro u hu
    simp [applyTriplanar, hu]

/-- C6, witness: the theorem applied to the freshly created legacy shared
material, whose uniforms object holds the white placeholder. -/
theorem claim_C6_witness :
    (initialMaterial false ParamsIn.empty 1 none).userDataTriUniforms =
      some { defaultTriUniforms with triMap := some Tex.white } ∧
    applyTriplanar (applyTriplanar (initialMaterial false ParamsIn.empty 1 none)) =
      applyTriplanar (initialMaterial false ParamsIn.empty 1 none) ∧
    (applyTriplanar (initialMaterial false ParamsIn.empty 1 none)).userDataTriUniforms =
      some { defaultTriUniforms with triMap := some Tex.white } := by
  refine ⟨?_, (claim_C6_idempotent (initialMaterial false ParamsIn.empty 1 none)).1,
    (claim_C6_idempotent (initialMaterial false ParamsIn.empty 1 none)).2
      { defaultTriUniforms with triMap := some Tex.white } ?_⟩ <;>
    simp [initialMaterial, applyTriplanar]

/-! Claim C7: the context-generation counter and safe mode. -/

theorem appStep_ctx_le (s : AppState) (e : AppEvent) :
    s.ctxVersion ≤ (appStep s e).ctxVersion := by
  cases e <;> simp [appStep]

theorem foldl_ctx_le (s : AppState) (tr : List AppEvent) :
    s.ctxVersion ≤ (List.foldl appStep s tr).ctxVersion := by
  induction tr generalizing s with
  | nil => simp
  | cons e tr ih =>
      simp only [List.foldl_cons]
      exact le_trans (appStep_ctx_le s e) (ih (appStep s e))

/-- C7: `ctxVersion` never decreases under any event, the context-restored
handler is the only one that modifies it and increments it by exactly one, a
loss-then-restore cycle increments it exactly once, and `safeMode` is set on
the loss signal and cleared on the restore signal. -/
theorem claim_C7_ctx_generation :
    (∀ s e, s.ctxVersion ≤ (appStep s e).ctxVersion) ∧
    (∀ s e, e ≠ AppEvent.contextRestored →
      (appStep s e).ctxVersion = s.ctxVersion) ∧
    (∀ s, (appStep s AppEvent.contextRestored).ctxVersion = s.ctxVersion + 1) ∧
    (∀ s, (appStep s AppEvent.contextLost).safeMode = true) ∧
    (∀ s, (appStep s AppEvent.contextRestored).safeMode = false) ∧
    (∀ s, (appStep (appStep s AppEvent.contextLost)
        AppEvent.contextRestored).ctxVersion = s.ctxVersion + 1 ∧
      (appStep (appStep s AppEvent.contextLost)
        AppEvent.contextRestored).safeMode = false) ∧
    (∀ s tr, s.ctxVersion ≤ (List.foldl appStep s tr).ctxVersion) := by
  refine ⟨appStep_ctx_le, fun s e he => ?_, fun s => rfl, fun s => rfl,
    fun s => rfl, fun s => ⟨rfl, rfl⟩, foldl_ctx_le⟩
  cases e with
  | contextLost => rfl
  | contextRestored => exact absurd rfl he
  | selectMesh i => rfl
  | selectMaterial i => rfl

/-- C7, witness: the theorem applied at a concrete state — a mesh selection
leaves `ctxVersion` at 0, a loss-then-restore cycle moves it to exactly 1
with `safeMode` cleared. -/
theorem claim_C7_witness :
    AppEvent.selectMesh 3 ≠ AppEvent.contextRestored ∧
    (appStep ⟨0, 0, false, 0⟩ (AppEvent.selectMesh 3)).ctxVersion = 0 ∧
    (appStep (appStep ⟨0, 0, false, 0⟩ AppEvent.contextLost)
        AppEvent.contextRestored).ctxVersion = 1 ∧
    (appStep (appStep ⟨0, 0, false, 0⟩ AppEvent.contextLost)
        AppEvent.contextRestored).safeMode = false := by
  refine ⟨by decide, claim_C7_ctx_generation.2.1 ⟨0, 0, false, 0⟩
      (AppEvent.selectMesh 3) (by decide), ?_, ?_⟩
  · exact (claim_C7_ctx_generation.2.2.2.2.2.1 ⟨0, 0, false, 0⟩).1
  · exact (claim_C7_ctx_generation.2.2.2.2.2.1 ⟨0, 0, false, 0⟩).2

/-! Claim C8: stale texture loads are discarded. -/

theorem texLoadComplete_stale (g : Nat) (s : TexEffectState) (url : String)
    (r : Except Unit Tex) (h : g ≠ s.latest) :
    texLoadComplete g url r s = s := by
  unfold texLoadComplete
  rw [if_neg h]

theorem texLoadComplete_live_ok {g : Nat} {s : TexEffectState} (url : String)
    (t : Tex) (h : g = s.latest) :
    texLoadComplete g url (Except.ok t) s =
      { s with tex := some t, lastMap := some url, loadingTex := false } := by
  unfold texLoadComplete
  rw [if_pos h]

/-- C8: a pending texture load whose liveness flag is stale (its generation
is no longer the latest) is discarded whole — the component state is left
exactly unchanged, so the loaded texture is never stored and the material
reconciled from that state is unchanged; consequently the newest request's
result prevails even when a stale result arrives after it. -/
theorem claim_C8_stale_discarded :
    (∀ (s : TexEffectState) (g : Nat) (url : String) (r : Except Unit Tex),
      g ≠ s.latest → texLoadComplete g url r s = s) ∧
    (∀ (s : TexEffectState) (gLive gStale : Nat) (urlLive urlStale : String)
        (tLive tStale : Tex), gLive = s.latest → gStale ≠ s.latest →
      (texLoadComplete gStale urlStale (Except.ok tStale)
        (texLoadComplete gLive urlLive (Except.ok tLive) s)).tex = some tLive) ∧
    (∀ (iw : Bool) (p : ParamsIn) (env : ℚ) (mapUrl : Option String) (ts : ℚ)
        (m : PMaterial) (s : TexEffectState) (g : Nat) (url : String)
        (r : Except Unit Tex), g ≠ s.latest →
      materialUpdate iw p env (texLoadComplete g url r s).tex mapUrl ts m =
        materialUpdate iw p env s.tex mapUrl ts m) := by
  refine ⟨fun s g url r h => texLoadComplete_stale g s url r h, ?_, ?_⟩
  · intro s gLive gStale urlLive urlStale tLive tStale hLive hStale
    rw [texLoadComplete_live_ok urlLive tLive hLive]
    rw [texLoadComplete_stale gStale
      { s with tex := some tLive, lastMap := some urlLive, loadingTex := false }
      urlStale (Except.ok tStale) hStale]
  · intro iw p env mapUrl ts m s g url r h
    rw [texLoadComplete_stale g s url r h]

/-- C8, witness: the theorem applied at a concrete state of generation 1 with
a stale generation-0 completion and a live generation-1 completion. -/
theorem claim_C8_witness :
    (0 : Nat) ≠ (⟨1, none, true, none⟩ : TexEffectState).latest ∧
    texLoadComplete 0 "/texture1.jpg" (Except.ok (Tex.loaded "/texture1.jpg"))
        ⟨1, none, true, none⟩ = ⟨1, none, true, none⟩ ∧
    (texLoadComplete 0 "/texture1.jpg" (Except.ok (Tex.loaded "/texture1.jpg"))
        (texLoadComplete 1 "/texture2.jpg" (Except.ok (Tex.loaded "/texture2.jpg"))
          ⟨1, none, true, none⟩)).tex = some (Tex.loaded "/texture2.jpg") := by
  refine ⟨by decide, ?_, ?_⟩
  · exact claim_C8_stale_discarded.1 ⟨1, none, true, none⟩ 0 "/texture1.jpg"
      (Except.ok (Tex.loaded "/texture1.jpg")) (by decide)
  · exact claim_C8_stale_discarded.2.1 ⟨1, none, true, none⟩ 1 0
      "/texture2.jpg" "/texture1.jpg" (Tex.loaded "/texture2.jpg")
      (Tex.loaded "/texture1.jpg") rfl (by decide)

/-! Claim C4: texture and albedo color are mutually exclusive. -/

/-- C4, counterexample: the claim states that for presets without a
`textureUrl` the texture binding (the `map` field on the modern backend) is
the placeholder; on the modern backend the reconciled material's `map` is
cleared to `null` instead of being bound to the white placeholder (here at
the solid "Default" preset's parameters). -/
theorem claim_C4_counterexample :
    (materialUpdate true (solidBase "#8976b8" 0 (1/10) 0 0) 1 none none 1
        (initialMaterial true (solidBase "#8976b8" 0 (1/10) 0 0) 1 none)).map = none ∧
    (none : Option Tex) ≠ some Tex.white := by
  constructor
  · simp [materialUpdate, initialMaterial, solidBase]
  · simp

/-- C4 (amended): a texture and an albedo color are never both active.
Selecting a preset with a `textureUrl` deletes the color from the parameter
set; once that preset's texture load completes the reconciled material's
albedo is white and the texture binding (modern `map`, legacy `triMap`
uniform) is the loaded texture, not the placeholder. For a preset without a
`textureUrl` the albedo equals the preset's or user's color; the legacy
`triMap` binding is the white placeholder, while the modern backend clears
`map` to `null` rather than binding the placeholder. -/
theorem claim_C4_amended :
    (∀ prev base url, (mergePreset prev base (some url)).color = none) ∧
    (∀ (p : ParamsIn) (env ts : ℚ) (m : PMaterial) (url : String) (t : Tex),
      (materialUpdate true p env (some t) (some url) ts m).color = "#ffffff" ∧
      (materialUpdate true p env (some t) (some url) ts m).map = some t) ∧
    (∀ (p : ParamsIn) (env ts : ℚ) (m : PMaterial) (url : String) (t : Tex),
      (materialUpdate false p env (some t) (some url) ts m).color = "#ffffff" ∧
      triMapValue (materialUpdate false p env (some t) (some url) ts m) = some t) ∧
    (∀ (p : ParamsIn) (env ts : ℚ) (m : PMaterial) (tex : Option Tex)
        (c : String), p.color = some c →
      (materialUpdate true p env tex none ts m).color = c ∧
      (materialUpdate true p env tex none ts m).map = none) ∧
    (∀ (p : ParamsIn) (env ts : ℚ) (m : PMaterial) (tex : Option Tex)
        (c : String), p.color = some c →
      (materialUpdate false p env tex none ts m).color = c ∧
      triMapValue (materialUpdate false p env tex none ts m) = some Tex.white) := by
  refine ⟨fun prev base url => ?_, fun p env ts m url t => ⟨?_, ?_⟩,
    fun p env ts m url t => ⟨?_, ?_⟩, fun p env ts m tex c hc => ⟨?_, ?_⟩,
    fun p env ts m tex c hc => ⟨?_, ?_⟩⟩
  · simp [mergePreset]
  · simp [materialUpdate]
  · simp [materialUpdate]
  · simp [materialUpdate, triMapValue]
  · simp [materialUpdate, triMapValue]
  · simp [materialUpdate, hc]
  · simp [materialUpdate]
  · simp [materialUpdate, hc]
  · simp [materialUpdate, triMapValue]

/-- C4, witness: the amended theorem applied at the "Texture 1" preset with
its loaded texture (albedo forced white, bindings non-placeholder on both
backends) and at the solid "Default" preset (albedo `#8976b8`, legacy binding
the placeholder, modern `map` cleared). -/
theorem claim_C4_witness :
    (solidBase "#8976b8" 0 (1/10) 0 0).color = some "#8976b8" ∧
    (mergePreset ParamsIn.empty (texturedBase 0 0 0) (some "/texture1.jpg")).color = none ∧
    (materialUpdate true (texturedBase 0 0 0) 1
        (some (Tex.loaded "/texture1.jpg")) (some "/texture1.jpg") 1
        (initialMaterial true (texturedBase 0 0 0) 1 none)).color = "#ffffff" ∧
    triMapValue (materialUpdate false (texturedBase 0 0 0) 1
        (some (Tex.loaded "/texture1.jpg")) (some "/texture1.jpg") 1
        (initialMaterial false (texturedBase 0 0 0) 1 none)) =
      some (Tex.loaded "/texture1.jpg") ∧
    (materialUpdate false (solidBase "#8976b8" 0 (1/10) 0 0) 1 none none 1
        (initialMaterial false (solidBase "#8976b8" 0 (1/10) 0 0) 1 none)).color =
      "#8976b8" := by
  refine ⟨rfl, claim_C4_amended.1 ParamsIn.empty (texturedBase 0 0 0) "/texture1.jpg",
    (claim_C4_amended.2.1 (texturedBase 0 0 0) 1 1
      (initialMaterial true (texturedBase 0 0 0) 1 none) "/texture1.jpg"
      (Tex.loaded "/texture1.jpg")).1,
    (claim_C4_amended.2.2.1 (texturedBase 0 0 0) 1 1
      (initialMaterial false (texturedBase 0 0 0) 1 none) "/texture1.jpg"
      (Tex.loaded "/texture1.jpg")).2,
    (claim_C4_amended.2.2.2.2 (solidBase "#8976b8" 0 (1/10) 0 0) 1 1
      (initialMaterial false (solidBase "#8976b8" 0 (1/10) 0 0) 1 none) none
      "#8976b8" rfl).1⟩

/-! Claim C9: recovery from texture load failure. -/

/-- C9, counterexample: the claim states that after a failed texture load the
material still has a map bound, fallen back to the white placeholder; on the
modern backend a preset with a `textureUrl` whose load failed (no texture in
state) leaves the reconciled material's `map` at `null` — no placeholder is
bound. -/
theorem claim_C9_counterexample :
    (materialUpdate true (texturedBase 0 0 0) 1 none (some "/texture1.jpg") 1
        (initialMaterial true (texturedBase 0 0 0) 1 none)).map = none ∧
    (none : Option Tex) ≠ some Tex.white := by
  constructor
  · simp [materialUpdate, initialMaterial, texturedBase]
  · simp

/-- C9 (amended): a texture fetch/decode failure is recovered locally — the
error callback is an ordinary total handler that only clears the loading
flag, storing nothing, so no exception propagates out of the pipeline. On
the legacy backend the material still has a map bound: its own `map` keeps
the white placeholder installed at creation and the `triMap` uniform falls
back to the white placeholder. On the modern backend `map` is cleared to
`null` instead of a placeholder binding. -/
theorem claim_C9_amended :
    (∀ (s : TexEffectState) (g : Nat) (url : String), g = s.latest →
      texLoadComplete g url (Except.error ()) s = { s with loadingTex := false }) ∧
    (∀ (p : ParamsIn) (env ts : ℚ) (m : PMaterial) (url : String),
      m.map = some Tex.white →
      (materialUpdate false p env none (some url) ts m).map = some Tex.white ∧
      triMapValue (materialUpdate false p env none (some url) ts m) =
        some Tex.white) ∧
    (∀ (p : ParamsIn) (env ts : ℚ) (m : PMaterial) (url : String),
      (materialUpdate true p env none (some url) ts m).map = none) := by
  refine ⟨fun s g url h => ?_, fun p env ts m url hm => ⟨?_, ?_⟩,
    fun p env ts m url => ?_⟩
  · unfold texLoadComplete
    rw [if_pos h]
  · simp [materialUpdate, hm]
  · simp [materialUpdate, triMapValue]
  · simp [materialUpdate]

/-- C9, witness: the amended theorem applied at a concrete failed load (the
state of generation 0 keeps only its loading flag cleared) and at the legacy
shared material created for the "Texture 1" preset, whose `map` is the white
placeholder. -/
theorem claim_C9_witness :
    (initialMaterial false (texturedBase 0 0 0) 1 none).map = some Tex.white ∧
    texLoadComplete 0 "/texture1.jpg" (Except.error ())
        ⟨0, none, true, none⟩ = ⟨0, none, false, none⟩ ∧
    (materialUpdate false (texturedBase 0 0 0) 1 none (some "/texture1.jpg") 1
        (initialMaterial false (texturedBase 0 0 0) 1 none)).map = some Tex.white := by
  refine ⟨?_, claim_C9_amended.1 ⟨0, none, true, none⟩ 0 "/texture1.jpg" rfl,
    (claim_C9_amended.2.1 (texturedBase 0 0 0) 1 1
      (initialMaterial false (texturedBase 0 0 0) 1 none) "/texture1.jpg" ?_).1⟩ <;>
    simp [initialMaterial, applyTriplanar]

/-! Claim C1: the assignment pass puts the one shared material on every
drawable leaf. -/

mutual

theorem assignObj_allShare (iw : Bool) (shared : Nat) (pv : Vec3) (sz : ℚ) :
    ∀ o : Obj3D, allMeshesShareObj shared (assignObj iw shared pv sz o) = true
  | Obj3D.mk isMesh w nm geo mat cast recv ch => by
      have hl := assignList_allShare iw shared pv sz ch
      cases isMesh <;> simp [assignObj, allMeshesShareObj, hl]

theorem assignList_allShare (iw : Bool) (shared : Nat) (pv : Vec3) (sz : ℚ) :
    ∀ l : ObjList,
      allMeshesShareList shared (assignList iw shared pv sz l) = true
  | ObjList.nil => by simp [assignList, allMeshesShareList]
  | ObjList.cons o os => by
      have h1 := assignObj_allShare iw shared pv sz o
      have h2 := assignList_allShare iw shared pv sz os
      simp [assignList, allMeshesShareList, h1, h2]

end

/-- C1: for every mesh selection and every resolved object graph, after the
resolver's `assign` pass completes every drawable leaf node's material field
is the one shared material instance held in `sharedMatRef` — no leaf holds a
distinct or stale material — on either backend. -/
theorem claim_C1_shared_material (isWebGPU : Bool) (shared : Nat)
    (pivotWS : Vec3) (sizeRef : ℚ) (root : Obj3D) :
    allMeshesShareObj shared (assignObj isWebGPU shared pivotWS sizeRef root) =
      true :=
  assignObj_allShare isWebGPU shared pivotWS sizeRef root

/-! Claim C10: boxProjectUVsCentered mutates only the uv (and on-demand
normal) attributes. -/

/-- C10: `boxProjectUVsCentered` leaves a geometry without a `position`
attribute completely unmodified (no `uv` attribute added); on any other
geometry it leaves the `position` values (hence the vertex count) and the
`index` unchanged, keeps an existing `normal` attribute exactly as it was,
and only writes the `uv` attribute (plus the `normal` attribute when it was
absent, computed on demand). -/
theorem claim_C10_frame (world nrm : Vec3 → Vec3) (geo : BufferGeometry)
    (pivotWS : Vec3) (sizeRef : ℚ) :
    (geo.position = none →
      boxProjectUVsCentered world nrm geo pivotWS sizeRef = geo) ∧
    (∀ ps, geo.position = some ps →
      (boxProjectUVsCentered world nrm geo pivotWS sizeRef).position = some ps ∧
      (boxProjectUVsCentered world nrm geo pivotWS sizeRef).index = geo.index ∧
      (∀ ns, geo.normal = some ns →
        (boxProjectUVsCentered world nrm geo pivotWS sizeRef).normal = some ns) ∧
      (boxProjectUVsCentered world nrm geo pivotWS sizeRef).uv.isSome = true) := by
  constructor
  · intro h
    unfold boxProjectUVsCentered
    rw [h]
  · intro ps h
    unfold boxProjectUVsCentered
    rw [h]
    refine ⟨rfl, rfl, fun ns hns => ?_, rfl⟩
    simp [hns]

/-- C10, witness: the theorem applied to a one-triangle geometry that has
normals (everything but `uv` preserved) and to a geometry with no `position`
attribute (returned unmodified). -/
theorem claim_C10_witness :
    boxProjectUVsCentered id id ⟨none, none, none, some [0, 1, 2]⟩ ⟨0, 0, 0⟩ 1 =
      ⟨none, none, none, some [0, 1, 2]⟩ ∧
    (boxProjectUVsCentered id id
        ⟨some [⟨0, 0, 0⟩, ⟨1, 0, 0⟩, ⟨0, 1, 0⟩],
         some [⟨0, 0, 1⟩, ⟨0, 0, 1⟩, ⟨0, 0, 1⟩], none, none⟩
        ⟨0, 0, 0⟩ 2).position = some [⟨0, 0, 0⟩, ⟨1, 0, 0⟩, ⟨0, 1, 0⟩] ∧
    (boxProjectUVsCentered id id
        ⟨some [⟨0, 0, 0⟩, ⟨1, 0, 0⟩, ⟨0, 1, 0⟩],
         some [⟨0, 0, 1⟩, ⟨0, 0, 1⟩, ⟨0, 0, 1⟩], none, none⟩
        ⟨0, 0, 0⟩ 2).normal = some [⟨0, 0, 1⟩, ⟨0, 0, 1⟩, ⟨0, 0, 1⟩] := by
  refine ⟨(claim_C10_frame id id ⟨none, none, none, some [0, 1, 2]⟩
      ⟨0, 0, 0⟩ 1).1 rfl,
    ((claim_C10_frame id id
        ⟨some [⟨0, 0, 0⟩, ⟨1, 0, 0⟩, ⟨0, 1, 0⟩],
         some [⟨0, 0, 1⟩, ⟨0, 0, 1⟩, ⟨0, 0, 1⟩], none, none⟩
        ⟨0, 0, 0⟩ 2).2 [⟨0, 0, 0⟩, ⟨1, 0, 0⟩, ⟨0, 1, 0⟩] rfl).1,
    (((claim_C10_frame id id
        ⟨some [⟨0, 0, 0⟩, ⟨1, 0, 0⟩, ⟨0, 1, 0⟩],
         some [⟨0, 0, 1⟩, ⟨0, 0, 1⟩, ⟨0, 0, 1⟩], none, none⟩
        ⟨0, 0, 0⟩ 2).2 [⟨0, 0, 0⟩, ⟨1, 0, 0⟩, ⟨0, 1, 0⟩] rfl).2.2.1
      [⟨0, 0, 1⟩, ⟨0, 0, 1⟩, ⟨0, 0, 1⟩] rfl)⟩

end ThreeCanvas
